import Mathlib

/-!
Verification of the UFO simulator core (engine, progress guard, approach
profile, braking planner and autopilot write discipline) against its
natural-language specification.

The engine (class UfoSim in ufosim3_2_9q.py) is embedded as a pure step
function on an explicit state record; Python ints become ℤ and Python
floats become ℝ (exact real arithmetic, since the engine uses
trigonometry).  The autopilot-side helpers (ProgressCheck, HProfil,
GeometryUtil, the braking planner and the maneuver write traces) only use
field arithmetic, so they are embedded over ℚ, keeping every definition
computable and every concrete fact decidable.
-/

namespace UfoSim

/-- State record of the simulator: the mutable attributes set by reset
and mutated by the tick, one field per Python attribute. -/
structure SimState where
  x : ℝ
  y : ℝ
  z : ℝ
  v : ℤ
  d : ℤ
  i : ℤ
  dist : ℝ
  ftime : ℝ
  xvect : ℝ
  yvect : ℝ
  zvect : ℝ
  delta_v : ℤ
  delta_d : ℤ
  delta_i : ℤ
  vel : ℝ

/-- Maximal velocity constant VMAX of the simulator. -/
def VMAX : ℤ := 15

/-- Constant acceleration applied per tick. -/
def ACC : ℤ := 1

/-- Fixed simulation step time in seconds. -/
noncomputable def STEP : ℝ := 0.1

/-- Embedding of UfoSim.reset: the state produced by reset, independent
of the previous state. -/
def reset (_s : SimState) : SimState :=
  { x := 0, y := 0, z := 0, v := 0, d := 90, i := 90,
    dist := 0, ftime := 0, xvect := 0, yvect := 0, zvect := 0,
    delta_v := 0, delta_d := 0, delta_i := 0, vel := 0 }

/-- Embedding of UfoSim.request_delta_v: additive accumulation. -/
def request_delta_v (s : SimState) (delta : ℤ) : SimState :=
  { s with delta_v := s.delta_v + delta }

/-- Embedding of UfoSim.request_delta_d. -/
def request_delta_d (s : SimState) (delta : ℤ) : SimState :=
  { s with delta_d := s.delta_d + delta }

/-- Embedding of UfoSim.request_delta_i. -/
def request_delta_i (s : SimState) (delta : ℤ) : SimState :=
  { s with delta_i := s.delta_i + delta }

/-- Embedding of UfoSim.set_d: the heading is written only when the
argument lies in the range 0 … 359. -/
def set_d (s : SimState) (new_d : ℤ) : SimState :=
  if 0 ≤ new_d ∧ new_d ≤ 359 then { s with d := new_d } else s

/-- Embedding of UfoSim.set_i: the inclination is written only when the
argument lies in the range −90 … 90. -/
def set_i (s : SimState) (new_i : ℤ) : SimState :=
  if -90 ≤ new_i ∧ new_i ≤ 90 then { s with i := new_i } else s

/-- Velocity part of the tick: drain the pending delta_v by at most one
acceleration unit, clamping the velocity into 0 … VMAX. -/
def update_v (s : SimState) : SimState :=
  if 0 < s.delta_v then
    if 0 < s.delta_v - ACC then
      { s with v := if s.v + ACC < VMAX then s.v + ACC else VMAX,
               delta_v := s.delta_v - ACC }
    else
      { s with v := if s.v + s.delta_v < VMAX then s.v + s.delta_v else VMAX,
               delta_v := 0 }
  else if s.delta_v < 0 then
    if s.delta_v + ACC < 0 then
      { s with v := if 0 < s.v - ACC then s.v - ACC else 0,
               delta_v := s.delta_v + ACC }
    else
      { s with v := if 0 < s.v + s.delta_v then s.v + s.delta_v else 0,
               delta_v := 0 }
  else s

/-- Heading part of the tick: move d one degree toward the pending
delta_d, wrapping between 0 and 359. -/
def update_d (s : SimState) : SimState :=
  if 0 < s.delta_d ∧ s.d = 359 then
    { s with delta_d := s.delta_d - 1, d := 0 }
  else if 0 < s.delta_d ∧ s.d < 359 then
    { s with delta_d := s.delta_d - 1, d := s.d + 1 }
  else if s.delta_d < 0 ∧ s.d = 0 then
    { s with delta_d := s.delta_d + 1, d := 359 }
  else if s.delta_d < 0 ∧ 0 < s.d then
    { s with delta_d := s.delta_d + 1, d := s.d - 1 }
  else
    { s with delta_d := 0 }

/-- Inclination part of the tick: move i one degree toward the pending
delta_i, stopping at the bounds −90 and 90. -/
def update_i (s : SimState) : SimState :=
  if 0 < s.delta_i ∧ s.i < 90 then
    { s with delta_i := s.delta_i - 1, i := s.i + 1 }
  else if s.delta_i < 0 ∧ -90 < s.i then
    { s with delta_i := s.delta_i + 1, i := s.i - 1 }
  else
    { s with delta_i := 0 }

/-- Motion part of the tick: recompute the velocity in m/s, accumulate
the distance, recompute the flight vector from heading and inclination
by spherical-to-Cartesian conversion, and integrate the position. -/
noncomputable def update_motion (s : SimState) : SimState :=
  let vel : ℝ := (s.v : ℝ) / 3.6
  let theta : ℝ := (-(s.i : ℝ) + 90) / 180 * Real.pi
  let phi : ℝ := (s.d : ℝ) / 180 * Real.pi
  let xv : ℝ := Real.sin theta * Real.cos phi
  let yv : ℝ := Real.sin theta * Real.sin phi
  let zv : ℝ := Real.cos theta
  { s with vel := vel,
           dist := s.dist + vel * STEP,
           xvect := xv, yvect := yv, zvect := zv,
           x := s.x + vel * STEP * xv,
           y := s.y + vel * STEP * yv,
           z := s.z + vel * STEP * zv }

/-- The airborne update block of the tick, in source order:
velocity, heading, inclination, then motion. -/
noncomputable def integrate (s : SimState) : SimState :=
  update_motion (update_i (update_d (update_v s)))

/-- Flight-time part of the tick: the flight time advances only while
the altitude is strictly positive. -/
noncomputable def tick_ftime (s : SimState) : SimState :=
  if 0 < s.z then { s with ftime := s.ftime + STEP } else s

/-- Everything the tick does before the terminal check: advance the
flight time, then run the airborne update block when not crashed. -/
noncomputable def pre_terminal (s : SimState) : SimState :=
  if 0 ≤ (tick_ftime s).z then integrate (tick_ftime s) else tick_ftime s

/-- Terminal check at the end of the tick: on the ground the craft lands
with velocity one (altitude clamped to zero) or crashes with a larger
velocity (altitude set to the sentinel −1); either way the velocity is
zeroed. -/
noncomputable def terminal_check (s : SimState) : SimState :=
  if s.z ≤ 0 then
    if s.v = 1 then { s with z := 0, v := 0 }
    else if 1 < s.v then { s with z := -1, v := 0 }
    else s
  else s

/-- Embedding of the private tick method of UfoSim: one full simulation
step. -/
noncomputable def update_sim (s : SimState) : SimState :=
  terminal_check (pre_terminal s)

/-- The state invariant from the specification: bounded velocity,
heading, inclination, and altitude at or above the crashed sentinel. -/
def Inv (s : SimState) : Prop :=
  0 ≤ s.v ∧ s.v ≤ VMAX ∧ 0 ≤ s.d ∧ s.d ≤ 359 ∧
  -90 ≤ s.i ∧ s.i ≤ 90 ∧ (-1 : ℝ) ≤ s.z

/-- Concrete state below ground with velocity two, used to instantiate
the terminal-condition theorem. -/
noncomputable def sC1 : SimState :=
  { x := 0, y := 0, z := -1/2, v := 2, d := 0, i := 0, dist := 0, ftime := 0,
    xvect := 0, yvect := 0, zvect := 0, delta_v := 0, delta_d := 0,
    delta_i := 0, vel := 0 }

/-- Concrete airborne state satisfying the invariant, with a pending
velocity delta, used to instantiate the invariant theorem. -/
noncomputable def sC2 : SimState :=
  { x := 1, y := 2, z := 1/2, v := 5, d := 90, i := 0, dist := 3, ftime := 4,
    xvect := 0, yvect := 0, zvect := 0, delta_v := 3, delta_d := -2,
    delta_i := 1, vel := 0 }

/-- Concrete state used to instantiate the reset theorems. -/
noncomputable def sC3 : SimState :=
  { x := 1, y := 1, z := 1, v := 1, d := 1, i := 1, dist := 1, ftime := 1,
    xvect := 1, yvect := 1, zvect := 1, delta_v := 1, delta_d := 1,
    delta_i := 1, vel := 1 }

/-- Landed state (altitude zero, velocity zero) with a pending velocity
delta of two and straight-up inclination: a tick lifts it off again,
refuting the unconditional no-op claim. -/
noncomputable def sC9 : SimState :=
  { x := 0, y := 0, z := 0, v := 0, d := 0, i := 90, dist := 0, ftime := 0,
    xvect := 0, yvect := 0, zvect := 0, delta_v := 2, delta_d := 0,
    delta_i := 0, vel := 0 }

/-- Crashed state (altitude at the sentinel) with arbitrary pending
deltas, used to instantiate the amended no-op theorem. -/
noncomputable def sC9w : SimState :=
  { x := 3, y := 4, z := -1, v := 0, d := 10, i := -20, dist := 7, ftime := 8,
    xvect := 0, yvect := 0, zvect := 0, delta_v := 7, delta_d := 5,
    delta_i := -3, vel := 0 }

/-- Concrete state used to instantiate the setter-range theorem. -/
noncomputable def sC10 : SimState :=
  { x := 0, y := 0, z := 2, v := 3, d := 45, i := 10, dist := 1, ftime := 1,
    xvect := 0, yvect := 0, zvect := 0, delta_v := 0, delta_d := 0,
    delta_i := 0, vel := 0 }

end UfoSim

namespace Progress

/-- Embedding of the ProgressCheck dataclass: the zero-argument probe is
modelled by passing the probed value to each evaluation; the stored
previous remainder rest_alt is initialized from the first probe. -/
structure ProgressCheck where
  ziel : ℚ
  eps_abs : ℚ := 1/1000
  eps_rel : ℚ := 1/1000
  rest_alt : ℚ

/-- Embedding of one evaluation of ProgressCheck: returns the updated
guard state and the done flag. -/
def ProgressCheck.call (pc : ProgressCheck) (rest_neu : ℚ) : ProgressCheck × Bool :=
  let min_fortschritt : ℚ := max pc.eps_abs (pc.eps_rel * max pc.rest_alt 1)
  let stagniert : Bool := decide (pc.rest_alt - rest_neu ≤ min_fortschritt)
  ({ pc with rest_alt := rest_neu }, decide (rest_neu ≤ pc.ziel) || stagniert)

end Progress

namespace Pilot

/-- Embedding of the AutopilotCfg dataclass from profil_config.py,
with rationals for the float fields and integers for the int fields. -/
structure AutopilotCfg where
  neigung_steigen_deg : ℤ := 90
  neigung_sinken_deg : ℤ := -90
  neigung_neutral_deg : ℤ := 0
  slow_h : ℚ := 4
  stop_h : ℚ := 1/20
  slow_z_fallback : ℚ := 2
  stop_z : ℚ := 1/20
  landing_slow_z : ℚ := 3
  poll_s : ℚ := 1/100
  v_up : ℤ := 10
  v_up_to_slow : ℤ := -9
  v_cruise : ℤ := 15
  v_cruise_to_slow : ℤ := -14
  v_stop : ℤ := -1
  v_cruise_kmh : ℚ := 15
  v_slow_kmh : ℚ := 1
  a_slow_mps2 : ℚ := -1
  tick_s : ℚ := 1/10
  dv_slow_per_tick_kmh : Option ℚ := none
  slow_start_rel : Option ℚ := none

/-- The DEFAULT_CFG instance: all fields at their declared defaults. -/
def DEFAULT_CFG : AutopilotCfg := {}

/-- One phase of the two-stage approach profile, recording the delta-v
request it issues and the threshold (ziel) handed to the ProgressCheck
it constructs; this is what one call of the private single-step helper
of HProfil does besides blocking. -/
structure ProfilPhase where
  dv : ℤ
  ziel : ℚ
  deriving DecidableEq

/-- Embedding of the single profile step of HProfil: request the given
delta-v and wait on a ProgressCheck built with the given threshold. -/
def profil_schritt_bis (ziel : ℚ) (dv : ℤ) : ProfilPhase :=
  { dv := dv, ziel := ziel }

/-- Embedding of HProfil.schrittweise_bis as the trace it produces: the
two profile phases (accelerate toward schwelle_langsam, then brake
toward schwelle_stop) followed by the final stop delta-v request.  The
thresholds are handed to the phases exactly as given. -/
def schrittweise_bis (schwelle_langsam schwelle_stop : ℚ)
    (dv_beschleunigen dv_abbremsen : ℤ) (konfig : AutopilotCfg) :
    List ProfilPhase × ℤ :=
  ([profil_schritt_bis schwelle_langsam dv_beschleunigen,
    profil_schritt_bis schwelle_stop dv_abbremsen], konfig.v_stop)

end Pilot

namespace Geometry

/-- Conversion factor from km/h to m/s used by GeometryUtil. -/
def KMH2MPS : ℚ := 1000 / 3600

/-- Velocity unit accepted by GeometryUtil; only these two values are
valid, any other unit string raises, and no caller in the repository
passes another one. -/
inductive VUnit where
  | mps
  | kmh
  deriving DecidableEq

/-- Embedding of the private unit conversion of GeometryUtil. -/
def to_mps (v : ℚ) : VUnit → ℚ
  | VUnit.mps => v
  | VUnit.kmh => v * KMH2MPS

/-- Embedding of GeometryUtil.bremsbeginn: start of the slow phase along
a distance, from a kinematic candidate (present when v0, v1 and a are
all given and a is nonzero) and optional heuristic candidates, clamped
into the band between the stop window and the total distance. -/
def bremsbeginn (s_total stop_window : ℚ)
    (v0 v1 a rel fb : Option ℚ) (u : VUnit) : ℚ :=
  let st : ℚ := max 0 s_total
  let sw : ℚ := max 0 stop_window
  if st ≤ sw then sw
  else
    let kin : List ℚ :=
      match v0, v1, a with
      | some v0, some v1, some a =>
          if a ≠ 0 then
            let v0m := to_mps v0 u
            let v1m := to_mps v1 u
            [st - max 0 ((v0m * v0m - v1m * v1m) / (2 * |a|))]
          else []
      | _, _, _ => []
    let relc : List ℚ :=
      match rel with
      | some r => [min 1 (max 0 r) * st]
      | none => []
    let fbc : List ℚ :=
      match fb with
      | some f => [st - f]
      | none => []
    let cands : List ℚ := kin ++ relc ++ fbc
    let start : ℚ := (cands.max?).getD sw
    min st (max sw start)

/-- Embedding of GeometryUtil.stoppen_vertikal: the validated vertical
stop threshold. -/
def stoppen_vertikal (stop_window : ℚ) : ℚ := max 0 stop_window

end Geometry

namespace Pilot

/-- Embedding of the private heuristic fallback of the braking planner:
start the slow phase at 80 percent of the remaining distance or at the
absolute fallback margin, never below the stop window, clamped to the
remaining distance. -/
def fallback_plan (conf : AutopilotCfg) (rest : ℚ) : ℚ × ℚ :=
  let slow0 : ℚ := max conf.stop_z (max (4/5 * rest) (rest - conf.slow_z_fallback))
  let slow : ℚ := min rest slow0
  let stop : ℚ := max 0 conf.stop_z
  (slow, stop)

/-- Embedding of the private braking planner of the autopilot: with the
kinematic flag set it derives the slow threshold from
GeometryUtil.bremsbeginn (passing v0, v1 and the constant deceleration
from the configuration in km/h) and the stop threshold from
GeometryUtil.stoppen_vertikal; otherwise it returns the heuristic
fallback plan.  The unit string passed by the planner is valid, so the
exception branch of the Python code is unreachable and the embedding is
total. -/
def bremsberechnung (conf : AutopilotCfg) (rest : ℚ)
    (use_heuristic : Bool) : ℚ × ℚ :=
  if use_heuristic then
    (Geometry.bremsbeginn rest conf.stop_z
       (some conf.v_cruise_kmh) (some conf.v_slow_kmh) (some conf.a_slow_mps2)
       none none Geometry.VUnit.kmh,
     Geometry.stoppen_vertikal conf.stop_z)
  else fallback_plan conf rest

/-- A write issued by the autopilot against the simulator interface:
one constructor per mutating method of UfoSimLike that the autopilot
code calls. -/
inductive Cmd where
  | reqV : ℤ → Cmd
  | reqD : ℤ → Cmd
  | reqI : ℤ → Cmd
  | setDCmd : ℤ → Cmd
  | setICmd : ℤ → Cmd
  deriving DecidableEq

/-- Whether a write is a delta request. -/
def Cmd.isDeltaReq : Cmd → Bool
  | Cmd.reqV _ => true
  | Cmd.reqD _ => true
  | Cmd.reqI _ => true
  | _ => false

/-- Embedding of the private inclination clamp of the autopilot. -/
def begrenze_neigung_deg (cfg : AutopilotCfg) (deg : ℤ) : ℤ :=
  max cfg.neigung_sinken_deg (min cfg.neigung_steigen_deg deg)

/-- The write issued by the private inclination setter of the autopilot:
clamp the angle, then call set_i on the simulator. -/
def set_neigung_cmd (cfg : AutopilotCfg) (deg : ℤ) : Cmd :=
  Cmd.setICmd (begrenze_neigung_deg cfg deg)

/-- The writes issued by one call of HProfil.schrittweise_bis: the
delta-v request of each phase followed by the stop request. -/
def schrittweiseWrites (schwelle_langsam schwelle_stop : ℚ)
    (dv_beschleunigen dv_abbremsen : ℤ) (konfig : AutopilotCfg) : List Cmd :=
  ((schrittweise_bis schwelle_langsam schwelle_stop
      dv_beschleunigen dv_abbremsen konfig).1.map (fun p => Cmd.reqV p.dv))
  ++ [Cmd.reqV (schrittweise_bis schwelle_langsam schwelle_stop
        dv_beschleunigen dv_abbremsen konfig).2]

/-- The writes issued by one takeoff maneuver, as a function of the
configuration, the target height z and the snapshot height sz read from
the simulator: below the stop window only the inclination is
neutralized, otherwise climb inclination, the profiled approach with
the planned thresholds, and neutral inclination again. -/
def takeoffWrites (conf : AutopilotCfg) (z sz : ℚ)
    (use_heuristic : Bool) : List Cmd :=
  let rest : ℚ := max (z - sz) 0
  if rest ≤ conf.stop_z then
    [set_neigung_cmd conf conf.neigung_neutral_deg]
  else
    let plan := bremsberechnung conf rest use_heuristic
    [set_neigung_cmd conf conf.neigung_steigen_deg]
    ++ schrittweiseWrites plan.1 plan.2 conf.v_up conf.v_up_to_slow conf
    ++ [set_neigung_cmd conf conf.neigung_neutral_deg]

/-- The writes issued by one cruise maneuver; grad is the normalized
integer bearing computed upstream from the angle function, which the
maneuver hands to set_d. -/
def cruiseWrites (conf : AutopilotCfg) (grad : ℤ) : List Cmd :=
  [Cmd.setDCmd grad]
  ++ schrittweiseWrites conf.slow_h conf.stop_h
       conf.v_cruise conf.v_cruise_to_slow conf

/-- The writes issued by one landing maneuver: descend inclination, the
profiled approach toward height zero, neutral inclination again. -/
def landingWrites (conf : AutopilotCfg) : List Cmd :=
  [set_neigung_cmd conf conf.neigung_sinken_deg]
  ++ schrittweiseWrites conf.landing_slow_z 0 conf.v_up conf.v_up_to_slow conf
  ++ [set_neigung_cmd conf conf.neigung_neutral_deg]

end Pilot

namespace Pilot

/-- Configuration whose vertical stop window exceeds the remaining
distance used in the counterexample for claim C6. -/
def cfgC6 : AutopilotCfg := { stop_z := 5, slow_z_fallback := 2 }

/-- Configuration with zero constant deceleration used for claim C7. -/
def cfgC7 : AutopilotCfg := { a_slow_mps2 := 0, stop_z := 1/2 }

end Pilot

section GeometryLemmas

open Geometry

/-- With zero deceleration and no heuristic candidates, bremsbeginn has
an empty candidate list and collapses to the clamped stop window. -/
theorem bremsbeginn_zero_a (s_total stop_window v0 v1 : ℚ) (u : VUnit) :
    bremsbeginn s_total stop_window (some v0) (some v1) (some 0) none none u
      = max 0 stop_window := by
  by_cases h : (max 0 s_total : ℚ) ≤ max 0 stop_window
  · unfold bremsbeginn
    rw [if_pos h]
  · unfold bremsbeginn
    rw [if_neg h]
    simp only [ne_eq, not_true_eq_false, if_false, List.append_nil,
      List.nil_append, List.max?_nil, Option.getD_none, max_self]
    exact min_eq_right (le_of_not_le h)

end GeometryLemmas

section ProgressClaims

open Progress

/-- Claim C4, as stated, is false: the guard updates the stored previous
remainder on every evaluation, not only when it returns not done.  At a
guard with previous remainder 10 and goal 3, probing 2 returns done and
still overwrites the stored remainder with 2. -/
theorem claim_C4_counterexample :
    (ProgressCheck.call { ziel := 3, rest_alt := 10 } 2).2 = true ∧
    (ProgressCheck.call { ziel := 3, rest_alt := 10 } 2).1.rest_alt ≠
      ({ ziel := 3, rest_alt := 10 } : ProgressCheck).rest_alt := by
  decide

/-- Claim C4 amended: each evaluation of the guard returns done exactly
when the probed remainder is at or below the goal or the improvement
over the stored previous remainder is at most
max eps_abs (eps_rel · max prev 1); and on every evaluation, done or
not, the stored previous remainder is updated to the probed value while
the other guard fields are unchanged. -/
theorem claim_C4 (pc : ProgressCheck) (rest_neu : ℚ) :
    ((ProgressCheck.call pc rest_neu).2 = true ↔
      rest_neu ≤ pc.ziel ∨
        pc.rest_alt - rest_neu ≤ max pc.eps_abs (pc.eps_rel * max pc.rest_alt 1)) ∧
    (ProgressCheck.call pc rest_neu).1 = { pc with rest_alt := rest_neu } := by
  unfold ProgressCheck.call
  exact ⟨by simp, rfl⟩

end ProgressClaims

section ProfilClaims

open Pilot

/-- Claim C5, as stated, is false: called with slow threshold 1 and stop
threshold 2, schrittweise_bis does not clamp; the threshold handed to
phase two is 2, which is not at most the slow threshold. -/
theorem claim_C5_counterexample :
    ¬ (((schrittweise_bis 1 2 10 (-9) DEFAULT_CFG).1.getD 1 ⟨0, 0⟩).ziel ≤ 1) := by
  decide

/-- Claim C5 amended: schrittweise_bis performs no clamping even when
the stop threshold exceeds the slow threshold; phase one uses exactly
the given slow threshold and phase two exactly the given stop
threshold, followed by the configured stop delta-v. -/
theorem claim_C5 (schwelle_langsam schwelle_stop : ℚ) (dv_b dv_a : ℤ)
    (konfig : AutopilotCfg) (_h : schwelle_langsam < schwelle_stop) :
    ((schrittweise_bis schwelle_langsam schwelle_stop dv_b dv_a konfig).1.map
        ProfilPhase.ziel) = [schwelle_langsam, schwelle_stop] ∧
    (schrittweise_bis schwelle_langsam schwelle_stop dv_b dv_a konfig).2
      = konfig.v_stop :=
  ⟨rfl, rfl⟩

/-- Witness for the amended claim C5 at thresholds 1 and 2. -/
theorem claim_C5_witness :
    ((schrittweise_bis 1 2 10 (-9) DEFAULT_CFG).1.map ProfilPhase.ziel)
      = [1, 2] ∧
    (schrittweise_bis 1 2 10 (-9) DEFAULT_CFG).2 = DEFAULT_CFG.v_stop :=
  claim_C5 1 2 10 (-9) DEFAULT_CFG (by norm_num)

end ProfilClaims

section PlannerClaims

open Pilot

/-- Claim C6, as stated, is false for configurations whose stop window
exceeds the remaining distance: with stop window 5 and remaining
distance 1 the fallback returns slow_at 1 and stop_at 5, violating
stop_at ≤ slow_at. -/
theorem claim_C6_counterexample :
    ¬ ((fallback_plan cfgC6 1).2 ≤ (fallback_plan cfgC6 1).1) := by
  have h : fallback_plan cfgC6 1 = (1, 5) := by
    norm_num [fallback_plan, cfgC6, max_def, min_def]
  rw [h]
  norm_num

/-- Claim C6 amended: for every remaining distance rest and every
configuration whose stop window satisfies 0 ≤ stop_z ≤ rest, the
heuristic fallback returns slow_at equal to
max(stop_window, max(0.8·rest, rest − slow_z_fallback)) clamped to at
most rest, stop_at equal to the stop window, and the output satisfies
0 ≤ stop_at ≤ slow_at ≤ rest. -/
theorem claim_C6 (conf : AutopilotCfg) (rest : ℚ)
    (h0 : 0 ≤ conf.stop_z) (h1 : conf.stop_z ≤ rest) :
    (fallback_plan conf rest).1
      = min rest (max conf.stop_z (max (4/5 * rest) (rest - conf.slow_z_fallback))) ∧
    (fallback_plan conf rest).2 = conf.stop_z ∧
    0 ≤ (fallback_plan conf rest).2 ∧
    (fallback_plan conf rest).2 ≤ (fallback_plan conf rest).1 ∧
    (fallback_plan conf rest).1 ≤ rest := by
  have hfb : fallback_plan conf rest
      = (min rest (max conf.stop_z (max (4/5 * rest) (rest - conf.slow_z_fallback))),
         max 0 conf.stop_z) := rfl
  rw [hfb]
  refine ⟨rfl, max_eq_right h0, le_max_left 0 _, ?_, min_le_left _ _⟩
  rw [max_eq_right h0]
  exact le_min h1 (le_max_left _ _)

/-- Witness for the amended claim C6 at the default configuration and
remaining distance 10. -/
theorem claim_C6_witness :
    (fallback_plan DEFAULT_CFG 10).1
      = min 10 (max DEFAULT_CFG.stop_z
          (max (4/5 * 10) (10 - DEFAULT_CFG.slow_z_fallback))) ∧
    (fallback_plan DEFAULT_CFG 10).2 = DEFAULT_CFG.stop_z ∧
    0 ≤ (fallback_plan DEFAULT_CFG 10).2 ∧
    (fallback_plan DEFAULT_CFG 10).2 ≤ (fallback_plan DEFAULT_CFG 10).1 ∧
    (fallback_plan DEFAULT_CFG 10).1 ≤ 10 :=
  claim_C6 DEFAULT_CFG 10 (by norm_num [DEFAULT_CFG]) (by norm_num [DEFAULT_CFG])

/-- Claim C7, as stated, is false: with zero deceleration the kinematic
path is not rejected in favor of the fallback; at remaining distance 10
the planner returns (1/2, 1/2) while the heuristic fallback plan would
be (8, 1/2). -/
theorem claim_C7_counterexample :
    cfgC7.a_slow_mps2 = 0 ∧
    bremsberechnung cfgC7 10 true ≠ fallback_plan cfgC7 10 := by
  refine ⟨rfl, ?_⟩
  have e1 : bremsberechnung cfgC7 10 true
      = (Geometry.bremsbeginn 10 (1/2) (some 15) (some 1) (some 0)
          none none Geometry.VUnit.kmh, max 0 (1/2 : ℚ)) := rfl
  have h1 : bremsberechnung cfgC7 10 true = (1/2, 1/2) := by
    rw [e1, bremsbeginn_zero_a]
    norm_num [Prod.ext_iff, max_def]
  have e2 : fallback_plan cfgC7 10
      = (min 10 (max (1/2) (max (4/5 * 10) (10 - 2))), max 0 (1/2 : ℚ)) := rfl
  have h2 : fallback_plan cfgC7 10 = (8, 1/2) := by
    rw [e2]
    norm_num [Prod.ext_iff, max_def, min_def]
  rw [h1, h2]
  norm_num [Prod.ext_iff]

/-- Claim C7 amended: when the kinematic strategy is selected and the
constant deceleration is zero, the kinematic candidate is silently
dropped inside bremsbeginn, which then returns the clamped stop window,
so the planner returns the pair (max 0 stop_z, max 0 stop_z) rather
than the heuristic fallback plan; no error reaches the caller since the
computation is total. -/
theorem claim_C7 (conf : AutopilotCfg) (rest : ℚ)
    (ha : conf.a_slow_mps2 = 0) :
    bremsberechnung conf rest true = (max 0 conf.stop_z, max 0 conf.stop_z) := by
  have hmain : Geometry.bremsbeginn rest conf.stop_z
      (some conf.v_cruise_kmh) (some conf.v_slow_kmh) (some conf.a_slow_mps2)
      none none Geometry.VUnit.kmh = max 0 conf.stop_z := by
    rw [ha]
    exact bremsbeginn_zero_a rest conf.stop_z _ _ _
  have hb : bremsberechnung conf rest true
      = (Geometry.bremsbeginn rest conf.stop_z
          (some conf.v_cruise_kmh) (some conf.v_slow_kmh) (some conf.a_slow_mps2)
          none none Geometry.VUnit.kmh,
         Geometry.stoppen_vertikal conf.stop_z) := rfl
  rw [hb, hmain]
  rfl

/-- Witness for the amended claim C7 at the zero-deceleration
configuration and remaining distance 3. -/
theorem claim_C7_witness :
    bremsberechnung cfgC7 3 true = (max 0 cfgC7.stop_z, max 0 cfgC7.stop_z) :=
  claim_C7 cfgC7 3 rfl

end PlannerClaims

section WriteClaims

open Pilot

/-- Every write in a schrittweise_bis trace is a delta-v request. -/
theorem schrittweiseWrites_reqV (langsam stop : ℚ) (dv_b dv_a : ℤ)
    (konfig : AutopilotCfg) (c : Cmd)
    (h : c ∈ schrittweiseWrites langsam stop dv_b dv_a konfig) :
    ∃ dv, c = Cmd.reqV dv := by
  simp only [schrittweiseWrites, schrittweise_bis, profil_schritt_bis,
    List.map_cons, List.map_nil, List.mem_append, List.mem_cons,
    List.mem_singleton, List.not_mem_nil, or_false] at h
  rcases h with (h | h) | h <;> exact ⟨_, h⟩

/-- Claim C8, as stated, is false: the landing maneuver writes the
inclination through the setter set_i, not through a delta request; the
first write of the landing trace at the default configuration is such a
setter call. -/
theorem claim_C8_counterexample :
    ¬ (∀ c ∈ landingWrites DEFAULT_CFG, c.isDeltaReq = true) := by
  decide

/-- Claim C8 amended: during the takeoff, cruise and landing maneuvers
every write the autopilot issues against the simulator is either a
delta-v request (request_delta_v) or a direct call of one of the
validated setters set_d and set_i; in particular the autopilot never
uses request_delta_d or request_delta_i and performs no other write. -/
theorem claim_C8 (conf : AutopilotCfg) (z sz : ℚ) (uh : Bool) (grad : ℤ)
    (c : Cmd)
    (hc : c ∈ takeoffWrites conf z sz uh ∨ c ∈ cruiseWrites conf grad ∨
      c ∈ landingWrites conf) :
    (∃ dv, c = Cmd.reqV dv) ∨ (∃ g, c = Cmd.setDCmd g) ∨
      (∃ w, c = Cmd.setICmd w) := by
  rcases hc with h | h | h
  · simp only [takeoffWrites] at h
    split_ifs at h with hb
    · simp only [List.mem_singleton] at h
      exact Or.inr (Or.inr ⟨_, h⟩)
    · simp only [List.mem_append, List.mem_singleton] at h
      rcases h with (h | h) | h
      · exact Or.inr (Or.inr ⟨_, h⟩)
      · exact Or.inl (schrittweiseWrites_reqV _ _ _ _ _ _ h)
      · exact Or.inr (Or.inr ⟨_, h⟩)
  · unfold cruiseWrites at h
    simp only [List.mem_append, List.mem_singleton, List.mem_cons,
      List.not_mem_nil, or_false] at h
    rcases h with h | h
    · exact Or.inr (Or.inl ⟨_, h⟩)
    · exact Or.inl (schrittweiseWrites_reqV _ _ _ _ _ _ h)
  · unfold landingWrites at h
    simp only [List.mem_append, List.mem_singleton] at h
    rcases h with (h | h) | h
    · exact Or.inr (Or.inr ⟨_, h⟩)
    · exact Or.inl (schrittweiseWrites_reqV _ _ _ _ _ _ h)
    · exact Or.inr (Or.inr ⟨_, h⟩)

/-- Witness for the amended claim C8: the inclination write of the
landing maneuver at the default configuration is a setter call. -/
theorem claim_C8_witness :
    (∃ dv, Cmd.setICmd 0 = Cmd.reqV dv) ∨
      (∃ g, Cmd.setICmd 0 = Cmd.setDCmd g) ∨
      (∃ w, Cmd.setICmd 0 = Cmd.setICmd w) :=
  claim_C8 DEFAULT_CFG 0 0 false 0 (Cmd.setICmd 0) (Or.inr (Or.inr (by decide)))

end WriteClaims

namespace UfoSim

/-- The velocity update leaves the altitude unchanged. -/
@[simp] theorem update_v_z (s : SimState) : (update_v s).z = s.z := by
  unfold update_v; split_ifs <;> rfl

/-- The velocity update leaves the heading unchanged. -/
@[simp] theorem update_v_d (s : SimState) : (update_v s).d = s.d := by
  unfold update_v; split_ifs <;> rfl

/-- The velocity update leaves the inclination unchanged. -/
@[simp] theorem update_v_i (s : SimState) : (update_v s).i = s.i := by
  unfold update_v; split_ifs <;> rfl

/-- The velocity update keeps the velocity within its bounds. -/
theorem update_v_v_bounds (s : SimState) (h0 : 0 ≤ s.v) (h1 : s.v ≤ VMAX) :
    0 ≤ (update_v s).v ∧ (update_v s).v ≤ VMAX := by
  unfold update_v VMAX ACC at *
  split_ifs <;> constructor <;> dsimp only <;> omega

/-- The heading update leaves the altitude unchanged. -/
@[simp] theorem update_d_z (s : SimState) : (update_d s).z = s.z := by
  unfold update_d; split_ifs <;> rfl

/-- The heading update leaves the velocity unchanged. -/
@[simp] theorem update_d_v (s : SimState) : (update_d s).v = s.v := by
  unfold update_d; split_ifs <;> rfl

/-- The heading update leaves the inclination unchanged. -/
@[simp] theorem update_d_i (s : SimState) : (update_d s).i = s.i := by
  unfold update_d; split_ifs <;> rfl

/-- The heading update keeps the heading within its bounds. -/
theorem update_d_d_bounds (s : SimState) (h0 : 0 ≤ s.d) (h1 : s.d ≤ 359) :
    0 ≤ (update_d s).d ∧ (update_d s).d ≤ 359 := by
  unfold update_d
  split_ifs <;> constructor <;> dsimp only <;> omega

/-- The inclination update leaves the altitude unchanged. -/
@[simp] theorem update_i_z (s : SimState) : (update_i s).z = s.z := by
  unfold update_i; split_ifs <;> rfl

/-- The inclination update leaves the velocity unchanged. -/
@[simp] theorem update_i_v (s : SimState) : (update_i s).v = s.v := by
  unfold update_i; split_ifs <;> rfl

/-- The inclination update leaves the heading unchanged. -/
@[simp] theorem update_i_d (s : SimState) : (update_i s).d = s.d := by
  unfold update_i; split_ifs <;> rfl

/-- The inclination update keeps the inclination within its bounds. -/
theorem update_i_i_bounds (s : SimState) (h0 : -90 ≤ s.i) (h1 : s.i ≤ 90) :
    -90 ≤ (update_i s).i ∧ (update_i s).i ≤ 90 := by
  unfold update_i
  split_ifs <;> constructor <;> dsimp only <;> omega

/-- The motion update leaves the velocity unchanged. -/
@[simp] theorem update_motion_v (s : SimState) : (update_motion s).v = s.v := rfl

/-- The motion update leaves the heading unchanged. -/
@[simp] theorem update_motion_d (s : SimState) : (update_motion s).d = s.d := rfl

/-- The motion update leaves the inclination unchanged. -/
@[simp] theorem update_motion_i (s : SimState) : (update_motion s).i = s.i := rfl

/-- The altitude written by the motion update. -/
theorem update_motion_z_eq (s : SimState) :
    (update_motion s).z = s.z + (s.v : ℝ) / 3.6 * STEP *
      Real.cos ((-(s.i : ℝ) + 90) / 180 * Real.pi) := rfl

/-- Starting at or above the ground with a velocity within the speed
limit, one motion update cannot take the altitude below the crash
sentinel: the altitude drops by at most VMAX / 3.6 · STEP = 5/12. -/
theorem update_motion_z_lb (s : SimState) (hz : (0 : ℝ) ≤ s.z)
    (h0 : 0 ≤ s.v) (h1 : s.v ≤ VMAX) : (-1 : ℝ) ≤ (update_motion s).z := by
  rw [update_motion_z_eq]
  have hcos := Real.neg_one_le_cos ((-(s.i : ℝ) + 90) / 180 * Real.pi)
  have hv0 : (0 : ℝ) ≤ (s.v : ℝ) := by exact_mod_cast h0
  have hv1 : (s.v : ℝ) ≤ 15 := by
    have : s.v ≤ 15 := h1
    exact_mod_cast this
  have hstep : STEP = (0.1 : ℝ) := rfl
  have hc0 : (0 : ℝ) ≤ (s.v : ℝ) / 3.6 * STEP := by
    rw [hstep]; positivity
  have hc1 : (s.v : ℝ) / 3.6 * STEP ≤ 5 / 12 := by
    rw [hstep, show (0.1 : ℝ) = 1/10 by norm_num,
      show (3.6 : ℝ) = 18/5 by norm_num]
    linarith
  nlinarith [mul_nonneg hc0 (by linarith :
    (0 : ℝ) ≤ Real.cos ((-(s.i : ℝ) + 90) / 180 * Real.pi) + 1)]

/-- The flight-time update leaves the altitude unchanged. -/
@[simp] theorem tick_ftime_z (s : SimState) : (tick_ftime s).z = s.z := by
  unfold tick_ftime; split_ifs <;> rfl

/-- The flight-time update leaves the velocity unchanged. -/
@[simp] theorem tick_ftime_v (s : SimState) : (tick_ftime s).v = s.v := by
  unfold tick_ftime; split_ifs <;> rfl

/-- The flight-time update leaves the heading unchanged. -/
@[simp] theorem tick_ftime_d (s : SimState) : (tick_ftime s).d = s.d := by
  unfold tick_ftime; split_ifs <;> rfl

/-- The flight-time update leaves the inclination unchanged. -/
@[simp] theorem tick_ftime_i (s : SimState) : (tick_ftime s).i = s.i := by
  unfold tick_ftime; split_ifs <;> rfl

/-- The flight-time update leaves the pending deltas unchanged. -/
@[simp] theorem tick_ftime_delta_v (s : SimState) :
    (tick_ftime s).delta_v = s.delta_v := by
  unfold tick_ftime; split_ifs <;> rfl

/-- The airborne update block keeps velocity, heading, inclination
within their bounds and the altitude above the crash sentinel, given a
start at or above the ground. -/
theorem integrate_bounds (s : SimState) (hz : (0 : ℝ) ≤ s.z)
    (hv0 : 0 ≤ s.v) (hv1 : s.v ≤ VMAX) (hd0 : 0 ≤ s.d) (hd1 : s.d ≤ 359)
    (hi0 : -90 ≤ s.i) (hi1 : s.i ≤ 90) :
    0 ≤ (integrate s).v ∧ (integrate s).v ≤ VMAX ∧
    0 ≤ (integrate s).d ∧ (integrate s).d ≤ 359 ∧
    -90 ≤ (integrate s).i ∧ (integrate s).i ≤ 90 ∧
    (-1 : ℝ) ≤ (integrate s).z := by
  unfold integrate
  obtain ⟨a0, a1⟩ := update_v_v_bounds s hv0 hv1
  obtain ⟨b0, b1⟩ := update_d_d_bounds (update_v s)
    (by simpa using hd0) (by simpa using hd1)
  obtain ⟨c0, c1⟩ := update_i_i_bounds (update_d (update_v s))
    (by simpa using hi0) (by simpa using hi1)
  refine ⟨by simpa using a0, by simpa using a1, by simpa using b0,
    by simpa using b1, by simpa using c0, by simpa using c1, ?_⟩
  exact update_motion_z_lb _ (by simpa using hz) (by simpa using a0)
    (by simpa using a1)

end UfoSim

section EngineClaims

open UfoSim

/-- Claim C1: when the airborne part of a tick leaves the altitude at or
below zero, the terminal check ends the tick landed (altitude zero,
velocity zero) if the velocity at that point is one, and crashed
(altitude −1, velocity zero) if it exceeds one. -/
theorem claim_C1 (s : SimState) (hz : (pre_terminal s).z ≤ 0) :
    ((pre_terminal s).v = 1 → (update_sim s).z = 0 ∧ (update_sim s).v = 0) ∧
    (1 < (pre_terminal s).v → (update_sim s).z = -1 ∧ (update_sim s).v = 0) := by
  constructor
  · intro hv
    unfold update_sim terminal_check
    rw [if_pos hz, if_pos hv]
    exact ⟨rfl, rfl⟩
  · intro hv
    unfold update_sim terminal_check
    rw [if_pos hz, if_neg (by omega : ¬ (pre_terminal s).v = 1), if_pos hv]
    exact ⟨rfl, rfl⟩

/-- Witness for claim C1: a tick from a state already below ground with
velocity two ends crashed. -/
theorem claim_C1_witness : (update_sim sC1).z = -1 ∧ (update_sim sC1).v = 0 := by
  have h0 : tick_ftime sC1 = sC1 := by
    unfold tick_ftime
    rw [if_neg]
    norm_num [sC1]
  have h1 : pre_terminal sC1 = sC1 := by
    unfold pre_terminal
    rw [h0, if_neg]
    norm_num [sC1]
  have hz : (pre_terminal sC1).z ≤ 0 := by rw [h1]; norm_num [sC1]
  have hv : 1 < (pre_terminal sC1).v := by rw [h1]; norm_num [sC1]
  exact (claim_C1 sC1 hz).2 hv

/-- Claim C2: one tick preserves the state invariant, for arbitrary
pending deltas. -/
theorem claim_C2 (s : SimState) (h : UfoSim.Inv s) : UfoSim.Inv (update_sim s) := by
  obtain ⟨hv0, hv1, hd0, hd1, hi0, hi1, hz⟩ := h
  have hm : 0 ≤ (pre_terminal s).v ∧ (pre_terminal s).v ≤ VMAX ∧
      0 ≤ (pre_terminal s).d ∧ (pre_terminal s).d ≤ 359 ∧
      -90 ≤ (pre_terminal s).i ∧ (pre_terminal s).i ≤ 90 ∧
      (-1 : ℝ) ≤ (pre_terminal s).z := by
    unfold pre_terminal
    split_ifs with h0
    · exact integrate_bounds (tick_ftime s) h0 (by simpa using hv0)
        (by simpa using hv1) (by simpa using hd0) (by simpa using hd1)
        (by simpa using hi0) (by simpa using hi1)
    · exact ⟨by simpa using hv0, by simpa using hv1, by simpa using hd0,
        by simpa using hd1, by simpa using hi0, by simpa using hi1,
        by simpa using hz⟩
  obtain ⟨m0, m1, m2, m3, m4, m5, m6⟩ := hm
  unfold UfoSim.Inv update_sim terminal_check
  split_ifs
  · exact ⟨le_refl 0, (by norm_num [VMAX] : (0 : ℤ) ≤ VMAX), m2, m3, m4, m5,
      (by norm_num : (-1 : ℝ) ≤ 0)⟩
  · exact ⟨le_refl 0, (by norm_num [VMAX] : (0 : ℤ) ≤ VMAX), m2, m3, m4, m5,
      le_refl (-1 : ℝ)⟩
  · exact ⟨m0, m1, m2, m3, m4, m5, m6⟩
  · exact ⟨m0, m1, m2, m3, m4, m5, m6⟩

/-- Witness for claim C2 at a concrete airborne state with pending
deltas. -/
theorem claim_C2_witness : UfoSim.Inv (update_sim sC2) := by
  refine claim_C2 sC2 ?_
  unfold UfoSim.Inv
  norm_num [sC2, VMAX]

end EngineClaims

namespace UfoSim

/-- With no pending velocity delta the velocity update is the identity. -/
theorem update_v_delta_zero (s : SimState) (h : s.delta_v = 0) :
    update_v s = s := by
  unfold update_v
  rw [if_neg (by omega), if_neg (by omega)]

/-- With no pending heading delta the heading update is the identity. -/
theorem update_d_delta_zero (s : SimState) (h : s.delta_d = 0) :
    update_d s = s := by
  unfold update_d
  rw [if_neg (by simp [h]), if_neg (by simp [h]), if_neg (by simp [h]),
    if_neg (by simp [h]), ← h]

/-- With no pending inclination delta the inclination update is the
identity. -/
theorem update_i_delta_zero (s : SimState) (h : s.delta_i = 0) :
    update_i s = s := by
  unfold update_i
  rw [if_neg (by simp [h]), if_neg (by simp [h]), ← h]

/-- On or below the ground the flight-time update is the identity. -/
theorem tick_ftime_ground (s : SimState) (h : s.z ≤ 0) :
    tick_ftime s = s := by
  unfold tick_ftime
  rw [if_neg (by linarith)]

/-- With zero velocity the motion update moves nothing: position and
accumulated distance are unchanged. -/
theorem update_motion_stay_v_zero (s : SimState) (h : s.v = 0) :
    (update_motion s).x = s.x ∧ (update_motion s).y = s.y ∧
    (update_motion s).z = s.z ∧ (update_motion s).dist = s.dist := by
  unfold update_motion
  refine ⟨?_, ?_, ?_, ?_⟩ <;> simp [h]

/-- The motion update leaves the flight time unchanged. -/
@[simp] theorem update_motion_ftime (s : SimState) :
    (update_motion s).ftime = s.ftime := rfl

end UfoSim

section EngineClaimsB

open UfoSim

/-- Claim C3, as stated, is false: reset does not zero the heading and
the inclination; it sets both to 90. -/
theorem claim_C3_counterexample :
    ¬ ((reset sC3).x = 0 ∧ (reset sC3).y = 0 ∧ (reset sC3).z = 0 ∧
       (reset sC3).v = 0 ∧ (reset sC3).d = 0 ∧ (reset sC3).i = 0 ∧
       (reset sC3).dist = 0 ∧ (reset sC3).ftime = 0 ∧
       (reset sC3).delta_v = 0 ∧ (reset sC3).delta_d = 0 ∧
       (reset sC3).delta_i = 0) := by
  intro hcon
  have hd : (reset sC3).d = 0 := hcon.2.2.2.2.1
  rw [show (reset sC3).d = 90 from rfl] at hd
  norm_num at hd

/-- Claim C3 amended: after every call of reset the position, velocity,
distance, flight time and all pending deltas are zero, while the
heading and the inclination are both set to 90 degrees. -/
theorem claim_C3 (s : SimState) :
    (reset s).x = 0 ∧ (reset s).y = 0 ∧ (reset s).z = 0 ∧ (reset s).v = 0 ∧
    (reset s).d = 90 ∧ (reset s).i = 90 ∧ (reset s).dist = 0 ∧
    (reset s).ftime = 0 ∧ (reset s).delta_v = 0 ∧ (reset s).delta_d = 0 ∧
    (reset s).delta_i = 0 :=
  ⟨rfl, rfl, rfl, rfl, rfl, rfl, rfl, rfl, rfl, rfl, rfl⟩

/-- Claim C9, as stated, is false: from the landed state (altitude zero,
velocity zero) with a pending velocity delta, one tick changes the
velocity — the craft lifts off again. -/
theorem claim_C9_counterexample : ¬ ((update_sim sC9).v = sC9.v) := by
  have h1 : update_v sC9 = { sC9 with v := 1, delta_v := 1 } := by
    unfold update_v
    rw [if_pos (by norm_num [sC9]), if_pos (by norm_num [sC9, ACC]),
      if_pos (by norm_num [sC9, ACC, VMAX])]
    simp [sC9, ACC]
  have h2 : integrate sC9 = update_motion { sC9 with v := 1, delta_v := 1 } := by
    unfold integrate
    rw [h1, update_d_delta_zero _ rfl, update_i_delta_zero _ rfl]
  have h3 : pre_terminal sC9 = integrate sC9 := by
    unfold pre_terminal
    rw [tick_ftime_ground sC9 (by norm_num [sC9]), if_pos (by norm_num [sC9])]
  have hz : 0 < (integrate sC9).z := by
    rw [h2, update_motion_z_eq]
    norm_num [sC9, STEP, Real.cos_zero]
  have h4 : update_sim sC9 = integrate sC9 := by
    unfold update_sim terminal_check
    rw [h3, if_neg (by linarith)]
  rw [h4, h2, update_motion_v]
  simp [sC9]

/-- Claim C9 amended: once grounded with velocity zero, a tick is a
no-op on the observable flight state in two senses: after a crash
(altitude −1) the tick changes nothing at all, for arbitrary pending
deltas; after a landing (altitude 0) the tick leaves position,
velocity, heading, inclination, distance and flight time unchanged
provided no deltas are pending — a pending velocity delta can lift the
craft off again. -/
theorem claim_C9 (s : SimState) (hv : s.v = 0) :
    (s.z = -1 → update_sim s = s) ∧
    (s.z = 0 → s.delta_v = 0 → s.delta_d = 0 → s.delta_i = 0 →
      (update_sim s).x = s.x ∧ (update_sim s).y = s.y ∧
      (update_sim s).z = s.z ∧ (update_sim s).v = s.v ∧
      (update_sim s).d = s.d ∧ (update_sim s).i = s.i ∧
      (update_sim s).dist = s.dist ∧ (update_sim s).ftime = s.ftime) := by
  constructor
  · intro hz
    have h0 : tick_ftime s = s := tick_ftime_ground s (by rw [hz]; norm_num)
    have h1 : pre_terminal s = s := by
      unfold pre_terminal
      rw [h0, if_neg (by rw [hz]; norm_num)]
    unfold update_sim
    rw [h1]
    unfold terminal_check
    rw [if_pos (by rw [hz]; norm_num), if_neg (by omega), if_neg (by omega)]
  · intro hz hdv hdd hdi
    have h0 : tick_ftime s = s := tick_ftime_ground s (le_of_eq hz)
    have h1 : pre_terminal s = update_motion s := by
      unfold pre_terminal
      rw [h0, if_pos (by simp [hz])]
      unfold integrate
      rw [update_v_delta_zero s hdv, update_d_delta_zero s hdd,
        update_i_delta_zero s hdi]
    obtain ⟨mx, my, mz, mdist⟩ := update_motion_stay_v_zero s hv
    have hterm : terminal_check (update_motion s) = update_motion s := by
      unfold terminal_check
      rw [if_pos (by simp [mz, hz]), if_neg (by rw [update_motion_v]; omega),
        if_neg (by rw [update_motion_v]; omega)]
    unfold update_sim
    rw [h1, hterm]
    exact ⟨mx, my, mz, update_motion_v s, update_motion_d s,
      update_motion_i s, mdist, rfl⟩

/-- Witness for the amended claim C9: a tick from a crashed state with
pending deltas changes nothing. -/
theorem claim_C9_witness : update_sim sC9w = sC9w :=
  (claim_C9 sC9w rfl).1 rfl

/-- Claim C10: out-of-range arguments to set_d and set_i are silently
ignored — the state is returned entirely unchanged, so no other field
changes and no error is raised. -/
theorem claim_C10 (s : SimState) (n m : ℤ)
    (hn : n < 0 ∨ 359 < n) (hm : m < -90 ∨ 90 < m) :
    set_d s n = s ∧ set_i s m = s := by
  constructor
  · unfold set_d
    rw [if_neg (by omega)]
  · unfold set_i
    rw [if_neg (by omega)]

/-- Witness for claim C10 at heading 400 and inclination 100. -/
theorem claim_C10_witness : set_d sC10 400 = sC10 ∧ set_i sC10 100 = sC10 :=
  claim_C10 sC10 400 100 (Or.inr (by norm_num)) (Or.inr (by norm_num))

end EngineClaimsB
